import Mathlib

/-!
Verification of the quota-accounting and API-key-rotation core of the
muzic7a repository (Supabase Edge Functions `generate-music`,
`check-generation`, `get-user-usage`, `generate-video`,
`check-video-status`).

Each definition is a shallow embedding of the corresponding TypeScript
in the repository.  Database rows become explicit record values, the
wall clock becomes an explicit `now` argument, and the outcome of the
single upstream HTTP call a handler makes becomes an explicit argument
of the handler (a sum type distinguishing a thrown fetch/JSON error
from a decoded response).  Integer DB columns are modelled as `Int`,
millisecond timestamps as `Nat`.
-/

/-! ## Calendar dates

JavaScript `Date` values are compared by their millisecond timestamp.
We model a timestamp as (year, month 1..12, day, time-of-day) compared
lexicographically; `tod` collapses the hour/minute/second/ms part,
which is all the reset logic needs. -/

structure SDate where
  year : Nat
  month : Nat
  day : Nat
  tod : Nat
deriving Repr, DecidableEq

def SDate.le (a b : SDate) : Prop :=
  a.year < b.year ∨ (a.year = b.year ∧
    (a.month < b.month ∨ (a.month = b.month ∧
      (a.day < b.day ∨ (a.day = b.day ∧ a.tod ≤ b.tod)))))

instance (a b : SDate) : Decidable (SDate.le a b) := by
  unfold SDate.le; exact inferInstance

/-- Models `new Date(now.getFullYear(), now.getMonth() + 1, 1)` from
`get-user-usage/index.ts` line 253: the first day of the month after
`now` (JS rolls month 12 over into January of the next year). -/
def firstOfNextMonth (now : SDate) : SDate :=
  if 12 ≤ now.month then ⟨now.year + 1, 1, 1, 0⟩
  else ⟨now.year, now.month + 1, 1, 0⟩

/-! ## JS string primitives

Kernel-computable models of `String.prototype.trim` and
`String.prototype.includes`, working on the underlying character
list. -/

/-- JS `trim`: drop whitespace from both ends. -/
def strTrim (s : String) : String :=
  ⟨((s.data.dropWhile Char.isWhitespace).reverse.dropWhile Char.isWhitespace).reverse⟩

def charsStartWith : List Char → List Char → Bool
  | _, [] => true
  | [], _ :: _ => false
  | c :: cs, p :: ps => c == p && charsStartWith cs ps

def charsContain : List Char → List Char → Bool
  | [], pat => charsStartWith [] pat
  | c :: cs, pat => charsStartWith (c :: cs) pat || charsContain cs pat

/-- JS `s.includes(pat)`. -/
def containsSubstring (s pat : String) : Bool :=
  charsContain s.data pat.data

/-! ## User subscriptions (table `user_subscriptions`) -/

structure Subscription where
  planType : String
  monthlyLimit : Int
  currentUsage : Int
  resetDate : SDate
deriving Repr, DecidableEq

/-! ## The current `generate-music` handler
(src/supabase/functions/generate-music/index.ts, lines 333-486).

The handler makes one upstream call (through the rotation manager) and
decodes a `KieAIResponse`; `KieOutcome.throws` stands for the dispatch
or JSON decode raising, `KieOutcome.ok code taskId` for a decoded
response body.  A missing or empty `data.taskId` is falsy in
`!result.data.taskId`, hence the `Option String` with `some ""` also
treated as absent. -/

inductive KieOutcome
  | throws
  | ok (code : Nat) (taskId : Option String)
deriving Repr, DecidableEq

inductive GenResult
  | quotaExceeded
  | badRequest
  | generationFailed
  | dispatchFailed
  | started (taskId : String)
deriving Repr, DecidableEq

/-- Is `result.data.taskId` truthy? (`undefined` and `""` are falsy). -/
def taskIdTruthy : Option String → Bool
  | none => false
  | some t => !(t == "")

/-- The quota gate, upstream call and usage commit of the current
`generate-music` handler.  Returns the response outcome and the
subscription row as left in the database.  The gate reads
`monthly_limit - current_usage` and never looks at `reset_date`; usage
is written back (incremented by 1) only on the success path, after the
upstream response carried `code == 200` and a truthy `taskId`. -/
def genMusicHandler (sub : Subscription) (prompt : String) (outcome : KieOutcome) :
    GenResult × Subscription :=
  let remaining := sub.monthlyLimit - sub.currentUsage
  if remaining ≤ 0 then (.quotaExceeded, sub)
  else if strTrim prompt = "" then (.badRequest, sub)
  else
    match outcome with
    | .throws => (.dispatchFailed, sub)
    | .ok code taskId =>
        if code ≠ 200 ∨ taskIdTruthy taskId = false then (.generationFailed, sub)
        else
          (.started (taskId.getD ""),
           { sub with currentUsage := sub.currentUsage + 1 })

/-! ## The legacy `generate-music` handler
(src/unnamed/part_005, lines 570-755).

This variant deducts usage *before* the upstream call (lines 672-690),
and reverts the deduction only on a decoded response with
`code !== 200` (lines 713-727).  When the fetch or the JSON decode
throws, control jumps to the outer catch (line 743) and the deduction
is left in place.  `apiKeyConfigured` models the `MUSIC_AI_API_KEY`
presence check at line 660, which runs before the deduction. -/
def legacyGenMusicHandler (apiKeyConfigured : Bool) (sub : Subscription)
    (prompt : String) (outcome : KieOutcome) : GenResult × Subscription :=
  let remaining := sub.monthlyLimit - sub.currentUsage
  if remaining ≤ 0 then (.quotaExceeded, sub)
  else if strTrim prompt = "" then (.badRequest, sub)
  else if apiKeyConfigured = false then (.dispatchFailed, sub)
  else
    let deducted := { sub with currentUsage := sub.currentUsage + 1 }
    match outcome with
    | .throws => (.dispatchFailed, deducted)
    | .ok code taskId =>
        if code ≠ 200 then
          (.generationFailed, { deducted with currentUsage := sub.currentUsage })
        else (.started (taskId.getD ""), deducted)

/-! ## The `get-user-usage` quota read
(src/supabase/functions/get-user-usage/index.ts, lines 247-289).

Reads the subscription row; if `now >= resetDate` it writes
`current_usage = 0` and `reset_date = first of next month` in the same
update.  Returns the row as stored afterwards and whether a reset
write happened. -/
def getUserUsageRead (now : SDate) (sub : Subscription) : Subscription × Bool :=
  if SDate.le sub.resetDate now then
    ({ sub with currentUsage := 0, resetDate := firstOfNextMonth now }, true)
  else (sub, false)

/-! ## MultiKeyRotationManager
(src/supabase/functions/generate-music/index.ts, lines 38-287).

The manager keeps `apiKeys: string[]` and a `Map` from key to a stats
record.  Because `initializeKeyTracking` writes one `Map` entry per
key, we model the whole state as an association list in key order.
(With duplicate secrets a JS `Map` shares one record between the
duplicates; updating every matching entry of the list mirrors that.)
`Date.now()` is passed in as `now`, held fixed across one call. -/

structure KeyStats where
  usage : Nat
  lastUsed : Nat
  isBlocked : Bool
  blockUntil : Nat
  successCount : Nat
  failureCount : Nat
deriving Repr, DecidableEq

def maxRequestsPerHour : Nat := 50
def blockDuration : Nat := 5 * 60 * 1000
def rotationDelay : Nat := 1000
def hourlyResetInterval : Nat := 60 * 60 * 1000

def initialKeyStats : KeyStats :=
  { usage := 0, lastUsed := 0, isBlocked := false, blockUntil := 0
    successCount := 0, failureCount := 0 }

abbrev KeyPool := List (String × KeyStats)

/-- The body of `updateKeyStats` (lines 165-190) on one stats record:
bump usage and lastUsed; on failure also block for `blockDuration`;
finally, if usage has hit the hourly cap, block until the next hour. -/
def bumpStats (s : KeyStats) (success : Bool) (now : Nat) : KeyStats :=
  let s1 := { s with usage := s.usage + 1, lastUsed := now }
  let s2 :=
    match success with
    | true => { s1 with successCount := s1.successCount + 1 }
    | false =>
        { s1 with
            failureCount := s1.failureCount + 1,
            isBlocked := true,
            blockUntil := now + blockDuration }
  if maxRequestsPerHour ≤ s2.usage then
    { s2 with isBlocked := true, blockUntil := now + hourlyResetInterval }
  else s2

def updateKeyStats (key : String) (success : Bool) (now : Nat) (pool : KeyPool) : KeyPool :=
  pool.map fun e => if e.1 = key then (e.1, bumpStats e.2 success now) else e

/-- The unblock pass at the top of `getNextAvailableKey` (lines
119-125): clear `isBlocked` on every key whose block has expired. -/
def unblockExpiredPass (now : Nat) (pool : KeyPool) : KeyPool :=
  pool.map fun e =>
    if e.2.isBlocked ∧ e.2.blockUntil ≤ now then (e.1, { e.2 with isBlocked := false })
    else e

/-- Models `availableKeys.sort(...)[0]`: the first element minimal under
`better` (JS `Array.prototype.sort` is stable, so among ties the
earliest element of the original array wins). -/
def pickMin (better : α → α → Bool) : List α → Option α
  | [] => none
  | x :: xs => some (xs.foldl (fun acc y => if better y acc then y else acc) x)

/-- Comparator of lines 135-141: lower usage first, then lower
`lastUsed`.  `better b a = true` iff `b` sorts strictly before `a`. -/
def availBetter (b a : Nat × String × KeyStats) : Bool :=
  if b.2.2.usage ≠ a.2.2.usage then decide (b.2.2.usage < a.2.2.usage)
  else decide (b.2.2.lastUsed < a.2.2.lastUsed)

/-- Comparator of line 148 (fallback list): lower usage first. -/
def usageBetter (b a : Nat × String × KeyStats) : Bool :=
  decide (b.2.2.usage < a.2.2.usage)

/-- The selection `getNextAvailableKey` (lines 116-163).  Returns the selected
(index, key, stats) — the source returns `{key, index}`; we also
expose the stats record the selection saw — together with the pool
after the unblock pass (the only mutation the call performs). -/
def indexedPool (now : Nat) (pool : KeyPool) : List (Nat × String × KeyStats) :=
  (unblockExpiredPass now pool).enum.map fun e => (e.1, e.2.1, e.2.2)

/-- The filter of lines 128-134: not blocked, under the hourly cap,
rotation delay respected. -/
def availableKeys (now : Nat) (pool : KeyPool) : List (Nat × String × KeyStats) :=
  (indexedPool now pool).filter fun e =>
    e.2.2.isBlocked = false ∧ e.2.2.usage < maxRequestsPerHour ∧
      rotationDelay ≤ now - e.2.2.lastUsed

/-- The fallback filter of lines 145-148: the delay condition is
dropped, blockedness and the hourly cap are still required. -/
def nonBlockedKeys (now : Nat) (pool : KeyPool) : List (Nat × String × KeyStats) :=
  (indexedPool now pool).filter fun e =>
    e.2.2.isBlocked = false ∧ e.2.2.usage < maxRequestsPerHour

def getNextAvailableKey (now : Nat) (pool : KeyPool) :
    Option (Nat × String × KeyStats) × KeyPool :=
  let pool1 := unblockExpiredPass now pool
  match pickMin availBetter (availableKeys now pool) with
  | some sel => (some sel, pool1)
  | none => (pickMin usageBetter (nonBlockedKeys now pool), pool1)

/-! ## `makeRequestWithRotation` (lines 192-255).

The fetch outcomes of the successive attempts are supplied as a script
indexed by attempt number: `throws` for a fetch that raises, `resp s`
for an HTTP response with status `s` (`response.ok` iff
`200 ≤ s < 300`).

Control flow of one attempt, as written in the source: a 429 marks
the key failed and continues; any other non-ok status first marks the
key failed, and then, for a 4xx, executes `throw new Error(...)` —
but that throw happens inside the `try`, so the surrounding `catch`
(lines 242-251) catches it, records it as `lastError`, marks the key
failed a second time, and continues with the next attempt.  Non-4xx
non-ok statuses just continue.  A thrown fetch marks the key failed
once (in the catch).  Only the pre-`try` "no available keys" error
escapes immediately. -/

inductive FetchOutcome
  | throws
  | resp (status : Nat)
deriving Repr, DecidableEq

inductive DispatchErr
  | fetchFailed
  | apiError (status : Nat)
deriving Repr, DecidableEq

inductive DispatchResult
  | success (status : Nat)
  | noAvailableKeys
  | allAttemptsFailed (last : Option DispatchErr)
deriving Repr, DecidableEq

def runDispatch (now : Nat) (script : Nat → FetchOutcome) :
    Nat → Nat → KeyPool → Option DispatchErr → DispatchResult × KeyPool
  | 0, _, pool, lastErr => (.allAttemptsFailed lastErr, pool)
  | remaining + 1, attempt, pool, lastErr =>
      match getNextAvailableKey now pool with
      | (none, pool1) => (.noAvailableKeys, pool1)
      | (some sel, pool1) =>
          let key := sel.2.1
          match script attempt with
          | .throws =>
              runDispatch now script remaining (attempt + 1)
                (updateKeyStats key false now pool1) (some .fetchFailed)
          | .resp s =>
              if s = 429 then
                runDispatch now script remaining (attempt + 1)
                  (updateKeyStats key false now pool1) lastErr
              else if s < 200 ∨ 300 ≤ s then
                let pool2 := updateKeyStats key false now pool1
                if 400 ≤ s ∧ s < 500 then
                  runDispatch now script remaining (attempt + 1)
                    (updateKeyStats key false now pool2) (some (.apiError s))
                else
                  runDispatch now script remaining (attempt + 1) pool2 lastErr
              else
                (.success s, updateKeyStats key true now pool1)

def makeRequestWithRotation (now : Nat) (script : Nat → FetchOutcome)
    (pool : KeyPool) : DispatchResult × KeyPool :=
  runDispatch now script (min pool.length 5) 0 pool none

/-! ## Key loading from configuration

The configuration visible to a function: the numbered secrets
`MUSIC_AI_API_KEY_i` and the single legacy secret `MUSIC_AI_API_KEY`. -/

structure SecretsEnv where
  numbered : Nat → Option String
  single : Option String

/-- Validity test of `loadApiKeysFromSecrets` for a numbered key
(generate-music, line 69): truthy, non-blank after trim, more than 10
characters, and not containing a placeholder marker. -/
def gmValidNumbered (k : String) : Bool :=
  !(strTrim k == "") && decide (10 < k.length) &&
    !(containsSubstring k "your_") && !(containsSubstring k "placeholder")

/-- Validity test for the legacy single key (line 78): no placeholder
check there. -/
def gmValidSingle (k : String) : Bool :=
  !(strTrim k == "") && decide (10 < k.length)

/-- The ordered sweep over `MUSIC_AI_API_KEY_1 … MUSIC_AI_API_KEY_50`
(lines 67-73), keeping the trimmed valid entries in index order. -/
def gmNumberedKeys (env : SecretsEnv) : List String :=
  ((List.range 50).map (· + 1)).filterMap fun i =>
    match env.numbered i with
    | some k => if gmValidNumbered k then some (strTrim k) else none
    | none => none

/-- The tail of `loadApiKeysFromSecrets` (generate-music, lines
75-90), split out over the collected numbered keys and the single
legacy secret: fall back to the legacy key only when no numbered key
was kept; `throw` (modelled as `.error ()`) when nothing valid is
configured. -/
def loadFromKeys (keys : List String) (single : Option String) :
    Except Unit (List String) :=
  let keys2 :=
    if keys.isEmpty then
      match single with
      | some k => if gmValidSingle k then [strTrim k] else []
      | none => []
    else keys
  if keys2.isEmpty then .error () else .ok keys2

/-- The loader `loadApiKeysFromSecrets` (generate-music, lines 61-91). -/
def loadApiKeysFromSecrets (env : SecretsEnv) : Except Unit (List String) :=
  loadFromKeys (gmNumberedKeys env) env.single

/-- Overwrite one numbered secret of the configuration. -/
def setNumbered (env : SecretsEnv) (i : Nat) (v : Option String) : SecretsEnv :=
  { env with numbered := fun j => if j = i then v else env.numbered j }

/-! ## `check-generation`'s MultiKeyManager
(src/unnamed/part_006, lines 27-184). -/

/-- Validity test of `loadApiKeysFromEnvironment` (lines 49 and 58):
truthy, non-blank after trim, and not the literal placeholder. -/
def cgValidKey (k : String) : Bool :=
  !(strTrim k == "") && !(k == "your_api_key_here")

def cgNumberedKeys (env : SecretsEnv) : List String :=
  ((List.range 20).map (· + 1)).filterMap fun i =>
    match env.numbered i with
    | some k => if cgValidKey k then some (strTrim k) else none
    | none => none

/-- The hardcoded default of line 67. -/
def cgFallbackKey : String := "4f52e3f37a67bb5aed649a471e9989b9"

/-- The loader `loadApiKeysFromEnvironment` (lines 41-72): numbered keys, else
the single key, else the hardcoded fallback key — never empty and
never an error. -/
def cgLoadApiKeys (env : SecretsEnv) : List String :=
  let keys := cgNumberedKeys env
  let keys2 :=
    if keys.isEmpty then
      match env.single with
      | some k => if cgValidKey k then [strTrim k] else []
      | none => []
    else keys
  if keys2.isEmpty then [cgFallbackKey] else keys2

/-- Per-key usage record of `check-generation`'s manager (line 30). -/
structure CgUsage where
  count : Nat
  resetTime : Nat
  lastUsed : Nat
deriving Repr, DecidableEq

def cgMaxRequestsPerKey : Nat := 100
def cgResetInterval : Nat := 60 * 60 * 1000
def cgKeyRotationDelay : Nat := 1000

abbrev CgPool := List (String × CgUsage)

/-- The reset pass at the top of `getNextAvailableKey` (lines 87-96). -/
def cgResetPass (now : Nat) (pool : CgPool) : CgPool :=
  pool.map fun e =>
    if e.2.resetTime ≤ now then
      (e.1, { count := 0, resetTime := now + cgResetInterval, lastUsed := e.2.lastUsed })
    else e

/-- The round-robin scan of lines 99-111: starting at
`currentKeyIndex`, the first key under the rate limit whose rotation
delay has passed.  `remaining` counts the offsets still to try. -/
def cgScan (now : Nat) (pool : CgPool) (start : Nat) : Nat → Nat → Option Nat
  | 0, _ => none
  | remaining + 1, offset =>
      let ki := (start + offset) % pool.length
      match pool.get? ki with
      | some e =>
          if e.2.count < cgMaxRequestsPerKey ∧ cgKeyRotationDelay ≤ now - e.2.lastUsed
          then some ki
          else cgScan now pool start remaining (offset + 1)
      | none => none

/-- The fallback of lines 113-128: the first key with strictly lowest
usage count, starting from `apiKeys[0]` — with no check against
`maxRequestsPerKey` at all. -/
def cgLowestUsage (pool : CgPool) : Option Nat :=
  match pool with
  | [] => none
  | e0 :: _ =>
      some (pool.enum.foldl
        (fun acc p => if p.2.2.count < acc.2 then (p.1, p.2.2.count) else acc)
        (0, e0.2.count)).1

/-- The selection `getNextAvailableKey` of `check-generation` (lines 84-129):
returns the chosen index (`none` only on an empty pool, which the
loader's hardcoded fallback prevents) and the pool after the reset
pass. -/
def cgGetNextAvailableKey (now : Nat) (pool : CgPool) (currentKeyIndex : Nat) :
    Option Nat × CgPool :=
  let pool1 := cgResetPass now pool
  match cgScan now pool1 currentKeyIndex pool1.length 0 with
  | some ki => (some ki, pool1)
  | none => (cgLowestUsage pool1, pool1)

/-! ## Status polling and the usage revert

`check-generation` (src/unnamed/part_006, lines 254-279): when the
decoded upstream status contains `FAILED` or equals
`SENSITIVE_WORD_ERROR`, the handler reads the *caller's*
`user_subscriptions` row and, if `current_usage > 0`, writes it back
decremented by one.  No task record is consulted: the task id flows
only into the upstream URL. -/

/-- Models `result.data.status?.includes('FAILED') ||
result.data.status === 'SENSITIVE_WORD_ERROR'`; an absent status is
falsy on both sides. -/
def isFailedStatus : Option String → Bool
  | none => false
  | some s => containsSubstring s "FAILED" || s == "SENSITIVE_WORD_ERROR"

/-- The guarded decrement of lines 266-275. -/
def revertStep (usage : Int) : Int :=
  if 0 < usage then usage - 1 else usage

/-- Effect of one `check-generation` poll on the caller's usage
counter. -/
def checkGenPollLedger (status : Option String) (usage : Int) : Int :=
  if isFailedStatus status then revertStep usage else usage

/-- The whole revert block as a transformation of the
`user_subscriptions` table (usage column keyed by user id): the
decrement is applied to the authenticated caller's row whenever the
polled status is failed, whatever the task id was. -/
def checkGenHandlePoll (callerId : Nat) (_taskId : String)
    (status : Option String) (subs : Nat → Int) : Nat → Int :=
  if isFailedStatus status ∧ 0 < subs callerId then
    fun uid => if uid = callerId then subs callerId - 1 else subs uid
  else subs

/-! ## Video: `generate-video` and `check-video-status` -/

inductive VideoStatus
  | created
  | processing
  | completed
  | failed
deriving Repr, DecidableEq

structure VideoSub where
  monthlyLimit : Int
  currentUsage : Int
deriving Repr, DecidableEq

/-- Effect of one `check-video-status` poll
(src/supabase/functions/check-video-status/index.ts, lines 116-140)
on the caller's `video_subscriptions.current_usage`. -/
def videoPollLedger (status : VideoStatus) (usage : Int) : Int :=
  if status = VideoStatus.failed then revertStep usage else usage

/-- Outcome of the Wavespeed call in `generate-video`: a thrown
fetch/non-ok response, or a decoded body with its `id` (the empty
string standing for a falsy/missing id) and status. -/
inductive WsOutcome
  | throws
  | ok (id : String) (status : VideoStatus)
deriving Repr, DecidableEq

inductive VideoGenResult
  | quotaExceeded
  | badRequest
  | noTaskId
  | dispatchFailed
  | started (taskId : String)
deriving Repr, DecidableEq

/-- The `generate-video` handler (src/unnamed/part_004, lines
31-259): when the caller has no `video_subscriptions` row, one is
created with `monthly_limit = 0, current_usage = 0` (lines 80-100);
then `remaining = monthly_limit - current_usage` gates the request
(lines 102-119) before the body is even parsed.  Returns the
response outcome, the subscription row as stored, and whether the
upstream Wavespeed API was called. -/
def generateVideoHandler (subRow : Option VideoSub) (audioUrl imageUrl : String)
    (outcome : WsOutcome) : VideoGenResult × VideoSub × Bool :=
  let sub := match subRow with
    | some s => s
    | none => { monthlyLimit := 0, currentUsage := 0 }
  let remaining := sub.monthlyLimit - sub.currentUsage
  if remaining ≤ 0 then (.quotaExceeded, sub, false)
  else if strTrim audioUrl = "" ∨ strTrim imageUrl = "" then (.badRequest, sub, false)
  else
    match outcome with
    | .throws => (.dispatchFailed, sub, true)
    | .ok id status =>
        if id = "" then (.noTaskId, sub, true)
        else
          let _ := status
          (.started id, { sub with currentUsage := sub.currentUsage + 1 }, true)

/-! ## Helper lemmas -/

theorem revertStep_nonneg {u : Int} (h : 0 ≤ u) : 0 ≤ revertStep u := by
  unfold revertStep; split <;> omega

theorem checkGenPollLedger_nonneg (s : Option String) {u : Int} (h : 0 ≤ u) :
    0 ≤ checkGenPollLedger s u := by
  unfold checkGenPollLedger
  split
  · exact revertStep_nonneg h
  · exact h

theorem videoPollLedger_nonneg (s : VideoStatus) {u : Int} (h : 0 ≤ u) :
    0 ≤ videoPollLedger s u := by
  unfold videoPollLedger
  split
  · exact revertStep_nonneg h
  · exact h

theorem pickMin_mem {better : α → α → Bool} {l : List α} {x : α}
    (h : pickMin better l = some x) : x ∈ l := by
  match l with
  | [] => simp [pickMin] at h
  | y :: ys =>
      simp only [pickMin, Option.some.injEq] at h
      subst h
      have key : ∀ (zs : List α) (a : α),
          zs.foldl (fun acc b => if better b acc then b else acc) a = a ∨
            zs.foldl (fun acc b => if better b acc then b else acc) a ∈ zs := by
        intro zs
        induction zs with
        | nil => intro a; exact Or.inl rfl
        | cons z zs ih =>
            intro a
            rcases ih (if better z a then z else a) with h1 | h1
            · rw [List.foldl_cons, h1]
              split
              · exact Or.inr (List.mem_cons_self _ _)
              · exact Or.inl rfl
            · exact Or.inr (List.mem_cons_of_mem _ h1)
      rcases key ys y with h1 | h1
      · rw [h1]; exact List.mem_cons_self _ _
      · exact List.mem_cons_of_mem _ h1

theorem pickMin_eq_none {better : α → α → Bool} {l : List α}
    (h : pickMin better l = none) : l = [] := by
  cases l with
  | nil => rfl
  | cons y ys => simp [pickMin] at h

/-! ## Claim C1 -/

def subFree10 : Subscription := ⟨"free", 1, 0, ⟨2025, 10, 1, 0⟩⟩

/-- C1 (amended): in the current `generate-music` handler the stored
`current_usage` is incremented exactly when the request reports
`started`, and `started` arises only from a decoded upstream response
with `code = 200` and a non-empty task id — so any upstream failure
leaves usage untouched.  The legacy handler, by contrast, deducts
before the call: when the upstream call throws, the deduction stays
in place. -/
theorem c1_commit_only_after_success :
    (∀ sub prompt outcome,
      (genMusicHandler sub prompt outcome).2.currentUsage =
        (match (genMusicHandler sub prompt outcome).1 with
         | .started _ => sub.currentUsage + 1
         | _ => sub.currentUsage))
    ∧ (∀ sub prompt outcome t, (genMusicHandler sub prompt outcome).1 = .started t →
        outcome = .ok 200 (some t) ∧ t ≠ "")
    ∧ (∀ sub prompt, 0 < sub.monthlyLimit - sub.currentUsage → ¬ strTrim prompt = "" →
        (legacyGenMusicHandler true sub prompt .throws).2.currentUsage =
          sub.currentUsage + 1) := by
  refine ⟨?_, ?_, ?_⟩
  · intro sub prompt outcome
    unfold genMusicHandler
    cases outcome with
    | throws =>
        dsimp only
        split
        · rfl
        split
        · rfl
        · rfl
    | ok code taskId =>
        dsimp only
        split
        · rfl
        split
        · rfl
        split
        · rfl
        · rfl
  · intro sub prompt outcome t h
    unfold genMusicHandler at h
    cases outcome with
    | throws =>
        dsimp only at h
        split at h
        · exact absurd h (by simp)
        split at h
        · exact absurd h (by simp)
        · exact absurd h (by simp)
    | ok code taskId =>
        dsimp only at h
        split at h
        · exact absurd h (by simp)
        split at h
        · exact absurd h (by simp)
        split at h
        · exact absurd h (by simp)
        · rename_i hquota hprompt hgate
          push_neg at hgate
          obtain ⟨hcode, htruthy⟩ := hgate
          simp only [Prod.fst, GenResult.started.injEq] at h
          cases taskId with
          | none => simp [taskIdTruthy] at htruthy
          | some t0 =>
              simp only [Option.getD_some] at h
              subst h
              subst hcode
              refine ⟨rfl, ?_⟩
              intro hempty
              subst hempty
              simp [taskIdTruthy] at htruthy
  · intro sub prompt h1 h2
    unfold legacyGenMusicHandler
    rw [if_neg (by omega), if_neg h2, if_neg (by simp)]

/-- C1 counterexample: a free user with `limit = 1, usage = 0` whose
upstream call throws (e.g. an HTTP 500 whose body fails to decode)
ends the legacy request with `usage = 1`, not 0. -/
theorem c1_counterexample :
    (legacyGenMusicHandler true subFree10 "beat" .throws).1 = .dispatchFailed ∧
    (legacyGenMusicHandler true subFree10 "beat" .throws).2.currentUsage = 1 := by
  decide

/-- C1 witness: the legacy conjunct applied at a concrete subscription. -/
theorem c1_witness :
    (legacyGenMusicHandler true subFree10 "beat" .throws).2.currentUsage = 0 + 1 := by
  have h := c1_commit_only_after_success.2.2 subFree10 "beat" (by decide) (by decide)
  simpa [subFree10] using h

/-! ## Claim C2 -/

def subRolled : Subscription := ⟨"free", 1, 1, ⟨2025, 10, 1, 0⟩⟩

/-- C2 (amended): in `get-user-usage`, a quota read at a time past
`resetDate` zeroes the usage and advances `resetDate` to day 1 of the
following month in the same write; a read before `resetDate` writes
nothing; after a rollover write, any further read in the same
calendar month resets nothing more.  The quota gate in
`generate-music`, however, never touches `resetDate` at all. -/
theorem c2_reset_on_rollover :
    (∀ now sub, SDate.le sub.resetDate now →
      getUserUsageRead now sub =
        ({ sub with currentUsage := 0, resetDate := firstOfNextMonth now }, true))
    ∧ (∀ now sub, ¬ SDate.le sub.resetDate now → getUserUsageRead now sub = (sub, false))
    ∧ (∀ now now2 sub, SDate.le sub.resetDate now →
        now2.year = now.year → now2.month = now.month →
        getUserUsageRead now2 (getUserUsageRead now sub).1 =
          ((getUserUsageRead now sub).1, false))
    ∧ (∀ sub prompt outcome, (genMusicHandler sub prompt outcome).2.resetDate =
        sub.resetDate) := by
  refine ⟨?_, ?_, ?_, ?_⟩
  · intro now sub h
    unfold getUserUsageRead
    rw [if_pos h]
  · intro now sub h
    unfold getUserUsageRead
    rw [if_neg h]
  · intro now now2 sub h hy hm
    unfold getUserUsageRead
    rw [if_pos h]
    dsimp only
    rw [if_neg ?_]
    unfold firstOfNextMonth SDate.le
    split <;> simp <;> omega
  · intro sub prompt outcome
    unfold genMusicHandler
    cases outcome with
    | throws =>
        dsimp only
        split
        · rfl
        split
        · rfl
        · rfl
    | ok code taskId =>
        dsimp only
        split
        · rfl
        split
        · rfl
        split
        · rfl
        · rfl

/-- C2 counterexample: the `generate-music` quota gate reads a quota
row whose `resetDate` (2025-10-01) has passed — the claim requires
this read to reset usage to 0 (and the generation to proceed) — yet
the handler rejects with `quotaExceeded` and leaves the stored usage
at 1. -/
theorem c2_counterexample :
    SDate.le subRolled.resetDate ⟨2025, 10, 12, 0⟩ ∧
    (genMusicHandler subRolled "beat" (.ok 200 (some "t"))).1 = .quotaExceeded ∧
    (genMusicHandler subRolled "beat" (.ok 200 (some "t"))).2.currentUsage = 1 := by
  decide

/-- C2 witness: a rollover read on 2025-10-12 resets the quota and
advances `resetDate` to 2025-11-01, and a second read on 2025-10-20
writes nothing.  The claim theorem is applied at these inputs. -/
theorem c2_witness :
    getUserUsageRead ⟨2025, 10, 12, 0⟩ subRolled =
      ({ subRolled with currentUsage := 0, resetDate := ⟨2025, 11, 1, 0⟩ }, true) ∧
    getUserUsageRead ⟨2025, 10, 20, 3⟩ (getUserUsageRead ⟨2025, 10, 12, 0⟩ subRolled).1 =
      ((getUserUsageRead ⟨2025, 10, 12, 0⟩ subRolled).1, false) := by
  constructor
  · have h := c2_reset_on_rollover.1 ⟨2025, 10, 12, 0⟩ subRolled (by decide)
    simpa [firstOfNextMonth] using h
  · exact c2_reset_on_rollover.2.2.1 ⟨2025, 10, 12, 0⟩ ⟨2025, 10, 20, 3⟩ subRolled
      (by decide) rfl rfl

/-! ## Claim C3 -/

/-- C3 counterexample: one failed task, polled twice by
`check-generation`, starting from `current_usage = 2`: the first
observation decrements to 1 and the second decrements again to 0 —
the revert is applied once per *poll*, not at most once per failed
task. -/
theorem c3_counterexample :
    checkGenPollLedger (some "CREATE_TASK_FAILED") 2 = 1 ∧
    checkGenPollLedger (some "CREATE_TASK_FAILED")
      (checkGenPollLedger (some "CREATE_TASK_FAILED") 2) = 0 := by
  decide

/-- C3 (amended): nothing records that a task was already reverted,
so every poll that observes a failed status decrements the caller's
usage while it is positive: `n` failed polls starting from usage
`u ≥ 0` leave `max (u - n) 0`. -/
theorem c3_revert_per_poll :
    ∀ (s : Option String) (u : Int) (n : Nat), isFailedStatus s = true → 0 ≤ u →
      (checkGenPollLedger s)^[n] u = max (u - n) 0 := by
  intro s u n hs
  induction n generalizing u with
  | zero =>
      intro hu
      simp [max_eq_left hu]
  | succ n ih =>
      intro hu
      rw [Function.iterate_succ_apply]
      have hstep : checkGenPollLedger s u = if 0 < u then u - 1 else u := by
        unfold checkGenPollLedger revertStep
        rw [if_pos hs]
      rw [hstep]
      by_cases hpos : 0 < u
      · rw [if_pos hpos, ih (u - 1) (by omega)]
        congr 1
        push_cast
        ring
      · rw [if_neg hpos, ih u hu]
        have hu0 : u = 0 := by omega
        subst hu0
        rw [max_eq_right (by omega), max_eq_right (by omega)]

/-- C3 witness: three polls of a failed task from usage 2 end at 0. -/
theorem c3_revert_witness :
    (checkGenPollLedger (some "GENERATE_AUDIO_FAILED"))^[3] 2 = 0 := by
  have h := c3_revert_per_poll (some "GENERATE_AUDIO_FAILED") 2 3 (by decide) (by decide)
  rw [h]
  decide

/-! ## Claim C4 -/

/-- C4: across any sequence of polls — whatever statuses they observe
— neither `check-generation`'s nor `check-video-status`'s revert ever
drives the usage counter below zero: the decrement is guarded by
`current_usage > 0`. -/
theorem c4_revert_never_negative :
    (∀ (statuses : List (Option String)) (u : Int), 0 ≤ u →
      0 ≤ statuses.foldl (fun acc s => checkGenPollLedger s acc) u)
    ∧ (∀ (vstatuses : List VideoStatus) (u : Int), 0 ≤ u →
      0 ≤ vstatuses.foldl (fun acc s => videoPollLedger s acc) u) := by
  constructor
  · intro statuses
    induction statuses with
    | nil => intro u hu; simpa using hu
    | cons s rest ih =>
        intro u hu
        rw [List.foldl_cons]
        exact ih _ (checkGenPollLedger_nonneg s hu)
  · intro vstatuses
    induction vstatuses with
    | nil => intro u hu; simpa using hu
    | cons s rest ih =>
        intro u hu
        rw [List.foldl_cons]
        exact ih _ (videoPollLedger_nonneg s hu)

/-- C4 witness: a concrete poll sequence (two failures among other
statuses) starting from usage 1 stays non-negative. -/
theorem c4_revert_witness :
    0 ≤ [some "CREATE_TASK_FAILED", none, some "SENSITIVE_WORD_ERROR",
          some "SUCCESS"].foldl (fun acc s => checkGenPollLedger s acc) 1 :=
  c4_revert_never_negative.1 _ 1 (by decide)

/-! ## Claim C5 -/

def poolAB : KeyPool := [("a", initialKeyStats), ("b", initialKeyStats)]

def cgPoolAtMax : CgPool := [("k1", ⟨100, 1, 0⟩)]

/-- C5 (amended): `generate-music`'s `getNextAvailableKey` only ever
returns a key that — after the unblock pass — is unblocked and under
`maxRequestsPerHour`; the relaxed fallback drops only the rotation
delay; and it signals exhaustion (`none`) only when every key of the
pool is blocked or at the cap.  `check-generation`'s
`MultiKeyManager`, by contrast, falls back to the lowest-usage key
even when that key has reached its cap (see the counterexample). -/
theorem c5_select_key_sound :
    (∀ now pool i k s, (getNextAvailableKey now pool).1 = some (i, k, s) →
      s.isBlocked = false ∧ s.usage < maxRequestsPerHour ∧
        (i, k, s) ∈ indexedPool now pool)
    ∧ (∀ now pool, (getNextAvailableKey now pool).1 = none →
      ∀ e ∈ indexedPool now pool,
        e.2.2.isBlocked = true ∨ maxRequestsPerHour ≤ e.2.2.usage) := by
  constructor
  · intro now pool i k s h
    unfold getNextAvailableKey at h
    dsimp only at h
    rcases hp : pickMin availBetter (availableKeys now pool) with _ | sel
    · rw [hp] at h
      dsimp only at h
      have hmem := pickMin_mem h
      rw [nonBlockedKeys, List.mem_filter] at hmem
      obtain ⟨hin, hcond⟩ := hmem
      simp only [decide_eq_true_eq] at hcond
      exact ⟨hcond.1, hcond.2, hin⟩
    · rw [hp] at h
      dsimp only at h
      obtain rfl : sel = (i, k, s) := by
        cases h; rfl
      have hmem := pickMin_mem hp
      rw [availableKeys, List.mem_filter] at hmem
      obtain ⟨hin, hcond⟩ := hmem
      simp only [decide_eq_true_eq] at hcond
      exact ⟨hcond.1, hcond.2.1, hin⟩
  · intro now pool h e hmem
    unfold getNextAvailableKey at h
    dsimp only at h
    rcases hp : pickMin availBetter (availableKeys now pool) with _ | sel
    · rw [hp] at h
      dsimp only at h
      have hnil := pickMin_eq_none h
      rw [nonBlockedKeys, List.filter_eq_nil_iff] at hnil
      have := hnil e hmem
      simp only [decide_eq_true_eq, not_and] at this
      by_cases hb : e.2.2.isBlocked = true
      · exact Or.inl hb
      · right
        have hb2 : e.2.2.isBlocked = false := by
          cases hx : e.2.2.isBlocked
          · rfl
          · exact absurd hx hb
        have := this hb2
        omega
    · rw [hp] at h
      exact absurd h (by simp)

/-- C5 counterexample: `check-generation`'s selector, on a pool whose
single key has `count = 100 = maxRequestsPerKey` (and an unexpired
window), still returns that key instead of signalling exhaustion. -/
theorem c5_counterexample :
    (cgGetNextAvailableKey 0 cgPoolAtMax 0).1 = some 0 ∧
    (cgGetNextAvailableKey 0 cgPoolAtMax 0).2.get? 0 =
      some ("k1", ⟨100, 1, 0⟩) ∧
    cgMaxRequestsPerKey ≤ 100 := by
  decide

/-- C5 witness: on a fresh two-key pool the selector picks key "a",
and the claim theorem certifies it unblocked and under the cap. -/
theorem c5_witness :
    initialKeyStats.isBlocked = false ∧
    initialKeyStats.usage < maxRequestsPerHour ∧
    (0, "a", initialKeyStats) ∈ indexedPool 1000 poolAB :=
  c5_select_key_sound.1 1000 poolAB 0 "a" initialKeyStats (by decide)

/-! ## Claim C6 -/

def script400then200 : Nat → FetchOutcome :=
  fun n => if n = 0 then .resp 400 else .resp 200

/-- C6 (code behavior at the failing input): with two available keys,
a first attempt answered by HTTP 400 (non-429) does *not* raise
immediately — the `throw` at line 232 is caught by the function's own
`catch` (line 242), the key is marked failed twice
(`failureCount = 2`, blocked), and the dispatcher continues with the
second key, returning its HTTP 200 response. -/
theorem c6_code_retries_after_4xx :
    (makeRequestWithRotation 1000 script400then200 poolAB).1 = .success 200 ∧
    (makeRequestWithRotation 1000 script400then200 poolAB).2.get? 0 =
      some ("a", { usage := 2, lastUsed := 1000, isBlocked := true,
                   blockUntil := 301000, successCount := 0, failureCount := 2 }) := by
  decide

/-! ## Claim C7 -/

def fiftySuccesses : List (Bool × Nat) := List.replicate 50 (true, 7)

/-- C7: after any `updateKeyStats` call that leaves a key's usage at
or above `maxRequestsPerHour`, the key is blocked with `blockUntil`
set to the hourly window rollover (`now + hourlyResetInterval`);
consequently, over any sequence of recorded outcomes starting from a
fresh key, the usage never reaches the cap without the key being
blocked. -/
theorem c7_usage_cap_blocks :
    (∀ s succ now, maxRequestsPerHour ≤ (bumpStats s succ now).usage →
      (bumpStats s succ now).isBlocked = true ∧
      (bumpStats s succ now).blockUntil = now + hourlyResetInterval)
    ∧ (∀ calls : List (Bool × Nat),
        maxRequestsPerHour ≤
          (calls.foldl (fun s c => bumpStats s c.1 c.2) initialKeyStats).usage →
        (calls.foldl (fun s c => bumpStats s c.1 c.2) initialKeyStats).isBlocked
          = true) := by
  have hstep : ∀ (s : KeyStats) (succ : Bool) (now : Nat),
      maxRequestsPerHour ≤ (bumpStats s succ now).usage →
      (bumpStats s succ now).isBlocked = true ∧
      (bumpStats s succ now).blockUntil = now + hourlyResetInterval := by
    intro s succ now h
    unfold bumpStats at h ⊢
    dsimp only at h ⊢
    cases succ <;> try dsimp only at h ⊢
    all_goals
      by_cases hcond : maxRequestsPerHour ≤ s.usage + 1
    all_goals try
      rw [if_pos hcond] at h ⊢
    all_goals try
      rw [if_neg hcond] at h ⊢
    all_goals first
      | exact ⟨rfl, rfl⟩
      | exact absurd h hcond
  refine ⟨hstep, ?_⟩
  intro calls h
  rcases List.eq_nil_or_concat calls with rfl | ⟨front, last, rfl⟩
  · simp [initialKeyStats, maxRequestsPerHour] at h
  · rw [List.concat_eq_append, List.foldl_append] at h ⊢
    simp only [List.foldl_cons, List.foldl_nil] at h ⊢
    exact (hstep _ last.1 last.2 h).1

set_option maxRecDepth 4000 in
/-- C7 witness: fifty successful outcomes on a fresh key leave it at
the cap and blocked. -/
theorem c7_witness :
    (fiftySuccesses.foldl (fun s c => bumpStats s c.1 c.2) initialKeyStats).isBlocked
      = true :=
  c7_usage_cap_blocks.2 fiftySuccesses (by decide)

/-! ## Claim C8 -/

def emptySecretsEnv : SecretsEnv := ⟨fun _ => none, none⟩

/-- C8 (amended): `generate-music`'s loader ignores blank/placeholder
numbered entries (removing an invalid entry changes nothing), falls
back to the single legacy key only when no numbered key is kept, and
errors out when no valid key at all is configured.
`check-generation`'s loader, by contrast, substitutes a hardcoded
default credential when nothing is configured (see the
counterexample). -/
theorem c8_load_keys :
    (∀ env i k, gmValidNumbered k = false →
      loadApiKeysFromSecrets (setNumbered env i (some k)) =
        loadApiKeysFromSecrets (setNumbered env i none))
    ∧ (∀ env, gmNumberedKeys env ≠ [] → ∀ v,
      loadApiKeysFromSecrets { env with single := v } = .ok (gmNumberedKeys env))
    ∧ (∀ env k, gmNumberedKeys env = [] → env.single = some k →
      gmValidSingle k = true → loadApiKeysFromSecrets env = .ok [strTrim k])
    ∧ (∀ env, gmNumberedKeys env = [] →
      (match env.single with
       | some k => gmValidSingle k = false
       | none => True) →
      loadApiKeysFromSecrets env = .error ()) := by
  refine ⟨?_, ?_, ?_, ?_⟩
  · intro env i k hk
    have hkeys : gmNumberedKeys (setNumbered env i (some k)) =
        gmNumberedKeys (setNumbered env i none) := by
      unfold gmNumberedKeys
      apply List.filterMap_congr
      intro j hj
      by_cases hji : j = i
      · subst hji
        simp [setNumbered, hk]
      · simp [setNumbered, hji]
    unfold loadApiKeysFromSecrets
    rw [hkeys]
    rfl
  · intro env hne v
    unfold loadApiKeysFromSecrets
    show loadFromKeys (gmNumberedKeys env) v = .ok (gmNumberedKeys env)
    rcases hL : gmNumberedKeys env with _ | ⟨a, as⟩
    · exact absurd hL hne
    · rfl
  · intro env k hL hsingle hvalid
    unfold loadApiKeysFromSecrets
    rw [hL, hsingle]
    simp [loadFromKeys, hvalid]
  · intro env hL hsingle
    unfold loadApiKeysFromSecrets
    rw [hL]
    rcases henv : env.single with _ | k
    · rfl
    · rw [henv] at hsingle
      have hs2 : gmValidSingle k = false := hsingle
      simp [loadFromKeys, hs2]

/-- C8 counterexample: with no secret configured at all,
`check-generation`'s loader returns the hardcoded fallback credential
instead of failing with an empty pool. -/
theorem c8_counterexample :
    cgLoadApiKeys emptySecretsEnv = ["4f52e3f37a67bb5aed649a471e9989b9"] := by
  decide

/-- C8 witness: the empty configuration makes `generate-music`'s
loader throw; the claim theorem is applied at that configuration. -/
theorem c8_witness : loadApiKeysFromSecrets emptySecretsEnv = .error () :=
  c8_load_keys.2.2.2 emptySecretsEnv (by decide) trivial

/-! ## Claim C9 -/

def subsTable : Nat → Int := fun u => if u = 7 then 2 else 5

/-- C9: when a `check-generation` poll observes a failed status, the
revert is applied to the authenticated caller's own subscription row
(and to no other row), and the outcome is completely independent of
which task id was polled — no task existence, ownership, or
prior-commit check is involved. -/
theorem c9_revert_hits_caller :
    (∀ caller t status subs, isFailedStatus status = true → 0 < subs caller →
      checkGenHandlePoll caller t status subs caller = subs caller - 1
      ∧ ∀ u, u ≠ caller → checkGenHandlePoll caller t status subs u = subs u)
    ∧ (∀ caller t1 t2 status subs,
      checkGenHandlePoll caller t1 status subs =
        checkGenHandlePoll caller t2 status subs) := by
  constructor
  · intro caller t status subs hs hpos
    constructor
    · unfold checkGenHandlePoll
      rw [if_pos ⟨hs, hpos⟩, if_pos rfl]
    · intro u hu
      unfold checkGenHandlePoll
      rw [if_pos ⟨hs, hpos⟩, if_neg hu]
  · intro caller t1 t2 status subs
    rfl

/-- C9 witness: caller 7 (usage 2) polls an arbitrary failing task id
and their own row drops to 1; the claim theorem is applied there. -/
theorem c9_witness :
    checkGenHandlePoll 7 "someone-elses-task" (some "CREATE_TASK_FAILED")
      subsTable 7 = 2 - 1 := by
  have h := (c9_revert_hits_caller.1 7 "someone-elses-task"
    (some "CREATE_TASK_FAILED") subsTable (by decide) (by decide)).1
  simpa [subsTable] using h

/-! ## Claim C10 -/

/-- C10: a video generation request from a user with no
`video_subscriptions` row creates the default row with
`monthly_limit = 0, current_usage = 0`, hence `remaining = 0` and the
request is rejected with the quota error before the upstream video
API is ever called — whatever the request body or the would-be
upstream outcome. -/
theorem c10_video_default_sub_blocks :
    ∀ audioUrl imageUrl outcome,
      generateVideoHandler none audioUrl imageUrl outcome =
        (.quotaExceeded, { monthlyLimit := 0, currentUsage := 0 }, false) := by
  intro audioUrl imageUrl outcome
  rfl
